import Mathlib

/-!
Verification of `official/transformer/v2/misc.py`: the configuration
resolver (`get_model_params`) and the flag declarations and cross-field
validators of `define_transformer_flags`.

The Python module is embedded shallowly:
* `get_model_params` is modelled over an explicit heap of hyperparameter
  records, so that reference/copy distinctions (`.copy()`) are visible;
* the four `multi_flags_validator` predicates are Boolean functions over a
  record of the flag values they read;
* the `flags.DEFINE_*` calls are transcribed into a list of flag
  declarations carrying name, short name, kind and default.
-/

set_option autoImplicit false

namespace TransformerMisc

/-- Modelled from the spec: the hyperparameter record type of the
`official.transformer.model.model_params` module, which is not part of the
provided source.  The spec describes a Parameter Set as "an immutable named
record of hyperparameters (e.g. batch size, embedding size, hidden layer
count, filter size)"; only the record identity and copy semantics matter
here, never the concrete field values, so theorems quantify over the stored
records. -/
structure ModelParams where
  batch_size : Nat
  embedding_size : Nat
  hidden_layers : Nat
  filter_size : Nat
deriving DecidableEq, Repr

instance : Inhabited ModelParams := ⟨⟨0, 0, 0, 0⟩⟩

/-- Python objects live on a heap; an address identifies one record object. -/
abbrev Addr := Nat

/-- The heap: record objects indexed by address (allocation order). -/
abbrev Heap := List ModelParams

/-- Reading the record object stored at an address. -/
def heapGetD (h : Heap) (a : Addr) : ModelParams := h.getD a default

/-- Allocating a fresh record object holding value `v` (what `.copy()` does):
returns the fresh address and the extended heap. -/
def alloc (h : Heap) (v : ModelParams) : Addr × Heap := (h.length, h ++ [v])

/-- Overwriting the record object at an address in place (a caller mutating
its record). -/
def heapSet (h : Heap) (a : Addr) (v : ModelParams) : Heap := h.set a v

/-- Address of the stored `model_params.TINY_PARAMS` object. -/
def TINY_PARAMS_addr : Addr := 0

/-- Address of the stored `model_params.BASE_PARAMS` object. -/
def BASE_PARAMS_addr : Addr := 1

/-- Address of the stored `model_params.BIG_PARAMS` object. -/
def BIG_PARAMS_addr : Addr := 2

/-- Address of the stored `model_params.BASE_MULTI_GPU_PARAMS` object. -/
def BASE_MULTI_GPU_PARAMS_addr : Addr := 3

/-- Address of the stored `model_params.BIG_MULTI_GPU_PARAMS` object. -/
def BIG_MULTI_GPU_PARAMS_addr : Addr := 4

/-- The initial heap: the five stored records of `model_params`, at the
addresses above, with arbitrary record values `t b g bm gm`. -/
def initHeap (t b g bm gm : ModelParams) : Heap := [t, b, g, bm, gm]

/-- The `PARAMS_MAP` dict literal of the source: parameter-set name to the
stored record object (a reference, not a copy). -/
def PARAMS_MAP : List (String × Addr) :=
  [("tiny", TINY_PARAMS_addr),
   ("base", BASE_PARAMS_addr),
   ("big", BIG_PARAMS_addr)]

/-- Python errors that `get_model_params` can raise: `ValueError` with a
message, or `KeyError` from a failed dict lookup. -/
inductive PyErr where
  | valueError (msg : String)
  | keyError (key : String)
deriving DecidableEq, Repr

/-- The `ValueError` message built by the source's
`"Not valid params: param_set={} num_gpus={}".format(param_set, num_gpus)`. -/
def not_valid_params_msg (param_set : String) (num_gpus : Int) : String :=
  "Not valid params: param_set=" ++ param_set ++ " num_gpus=" ++ toString num_gpus

/-- The source's `get_model_params(param_set, num_gpus)`: with more than one
GPU, "big" and "base" return a fresh copy of the corresponding multi-GPU
record and anything else raises `ValueError`; otherwise the name is looked
up in `PARAMS_MAP` (raising `KeyError` when absent) and a fresh copy of the
stored record is returned. -/
def get_model_params (param_set : String) (num_gpus : Int) (h : Heap) :
    Except PyErr (Addr × Heap) :=
  if 1 < num_gpus then
    if param_set = "big" then
      Except.ok (alloc h (heapGetD h BIG_MULTI_GPU_PARAMS_addr))
    else if param_set = "base" then
      Except.ok (alloc h (heapGetD h BASE_MULTI_GPU_PARAMS_addr))
    else
      Except.error (PyErr.valueError (not_valid_params_msg param_set num_gpus))
  else
    match PARAMS_MAP.lookup param_set with
    | some a => Except.ok (alloc h (heapGetD h a))
    | none => Except.error (PyErr.keyError param_set)

/-- The flag values read by the four validators registered in
`define_transformer_flags`.  String flags default to `None` in the source,
hence `Option String`; `train_epochs` is an integer flag that may be unset. -/
structure FlagAssignment where
  mode : String
  train_epochs : Option Int
  bleu_source : Option String
  bleu_ref : Option String
  vocab_file : Option String
  export_dir : Option String
deriving DecidableEq, Repr

/-- Python truthiness of an optional string flag value, as used by
`if flags_dict[...]:` — `None` and the empty string are falsy, every other
string is truthy. -/
def pyTruthy : Option String → Bool
  | Option.none => false
  | Option.some s => !(s == "")

/-- The source's `_check_train_limits` validator body: when `mode == "train"`,
`train_epochs` must not be `None`; otherwise accept. -/
def _check_train_limits (f : FlagAssignment) : Bool :=
  if f.mode = "train" then f.train_epochs.isSome else true

/-- The message registered with `_check_train_limits`. -/
def train_limits_message : String :=
  "--train_epochs must be defined in train mode"

/-- The source's `_check_bleu_files` validator body:
`(bleu_source is None) == (bleu_ref is None)`. -/
def _check_bleu_files (f : FlagAssignment) : Bool :=
  f.bleu_source.isNone == f.bleu_ref.isNone

/-- The message registered with `_check_bleu_files`. -/
def bleu_files_message : String :=
  "Both or neither --bleu_source and --bleu_ref must be defined."

/-- The source's `_check_bleu_vocab_file` validator body: when both
`bleu_source` and `bleu_ref` are truthy, `vocab_file` must not be `None`;
otherwise accept. -/
def _check_bleu_vocab_file (f : FlagAssignment) : Bool :=
  if pyTruthy f.bleu_source && pyTruthy f.bleu_ref then f.vocab_file.isSome
  else true

/-- The message registered with `_check_bleu_vocab_file`. -/
def bleu_vocab_file_message : String :=
  "--vocab_file must be defined if --bleu_source and --bleu_ref are defined."

/-- The source's `_check_export_vocab_file` validator body: when `export_dir`
is truthy, `vocab_file` must not be `None`; otherwise accept. -/
def _check_export_vocab_file (f : FlagAssignment) : Bool :=
  if pyTruthy f.export_dir then f.vocab_file.isSome else true

/-- The message registered with `_check_export_vocab_file`. -/
def export_vocab_file_message : String :=
  "--vocab_file must be defined if --export_dir is set."

/-- The flag values after `define_transformer_flags` has run, before any
command-line override: `mode` defaults to `"train"`, `train_epochs` is set
to `10` by the trailing `flags_core.set_defaults`, the string flags default
to `None`.  `export_dir` is declared by the shared `flags_core.define_base`
module, which is not part of the provided source; modelled from the spec,
which treats it as an unset-by-default path flag. -/
def defaultFlags : FlagAssignment :=
  { mode := "train"
    train_epochs := Option.some 10
    bleu_source := Option.none
    bleu_ref := Option.none
    vocab_file := Option.none
    export_dir := Option.none }

/-- The kind of a flag declaration: `flags.DEFINE_enum` (with its allowed
values), `DEFINE_string`, `DEFINE_bool` or `DEFINE_integer`. -/
inductive FlagKind where
  | enum (values : List String)
  | str
  | boolean
  | integer
deriving DecidableEq, Repr

/-- The default value of a flag declaration. -/
inductive FlagDefault where
  | str (s : String)
  | intv (n : Int)
  | boolv (b : Bool)
  | unset
deriving DecidableEq, Repr

/-- One `flags.DEFINE_*` call: flag name, optional short name, kind and
default. -/
structure FlagDecl where
  name : String
  short_name : Option String
  kind : FlagKind
  default : FlagDefault
deriving DecidableEq, Repr

/-- The transformer-specific flag declarations made by
`define_transformer_flags`, in source order.  The `param_set` enum takes
its allowed values from `PARAMS_MAP.keys()`. -/
def transformer_flags : List FlagDecl :=
  [⟨"param_set", Option.some "mp", FlagKind.enum (PARAMS_MAP.map Prod.fst),
      FlagDefault.str "big"⟩,
   ⟨"static_batch", Option.none, FlagKind.boolean, FlagDefault.boolv false⟩,
   ⟨"steps_per_epoch", Option.some "sbe", FlagKind.integer,
      FlagDefault.intv 1000⟩,
   ⟨"init_epoch", Option.some "is", FlagKind.integer, FlagDefault.intv 0⟩,
   ⟨"init_weight_path", Option.some "iwp", FlagKind.str, FlagDefault.unset⟩,
   ⟨"init_logdir_timestamp", Option.some "ilt", FlagKind.str,
      FlagDefault.unset⟩,
   ⟨"validation_steps", Option.some "vs", FlagKind.integer,
      FlagDefault.intv 64⟩,
   ⟨"bleu_source", Option.some "bls", FlagKind.str, FlagDefault.unset⟩,
   ⟨"bleu_ref", Option.some "blr", FlagKind.str, FlagDefault.unset⟩,
   ⟨"vocab_file", Option.some "vf", FlagKind.str, FlagDefault.unset⟩,
   ⟨"mode", Option.none, FlagKind.str, FlagDefault.str "train"⟩]

/-- The trailing `flags_core.set_defaults(...)` call: overrides of defaults
of flags declared by the shared base module. -/
def base_default_overrides : List (String × FlagDefault) :=
  [("data_dir", FlagDefault.str "/tmp/translate_ende"),
   ("model_dir", FlagDefault.str "/tmp/transformer_model"),
   ("batch_size", FlagDefault.unset),
   ("train_epochs", FlagDefault.intv 10)]

/-- Look up a transformer-specific flag declaration by flag name. -/
def flagDecl (name : String) : Option FlagDecl :=
  transformer_flags.find? (fun d => d.name == name)

/-- Whether the command-line parser accepts a raw string value for a flag of
the given declaration: an enum flag accepts exactly its enumerated values, a
string flag accepts any string.  This models the documented behaviour of the
flag library (`DEFINE_enum` restricts parsing, `DEFINE_string` does not);
numeric and boolean parsing are not needed here. -/
def flagParseOk (d : FlagDecl) (value : String) : Bool :=
  match d.kind with
  | FlagKind.enum values => values.contains value
  | _ => true

/-- The flag assignment of claim C9: the defaults with both BLEU paths set to
the empty string and `vocab_file` left unset. -/
def emptyBleuFlags : FlagAssignment :=
  { defaultFlags with bleu_source := Option.some "", bleu_ref := Option.some "" }

/-- The train-limits rule as the spec words it: in train mode a positive
training-epoch count must be set.  Stated from the spec's words, to be
compared with the source's `_check_train_limits`. -/
def trainLimitsSpecRule (f : FlagAssignment) : Prop :=
  f.mode = "train" → ∃ e : Int, f.train_epochs = Option.some e ∧ 0 < e

/-- The BLEU-vocab rule as the claim words it: whenever both BLEU paths are
set (non-`None`), `vocab_file` is set.  Stated from the spec's words, to be
compared with the source's `_check_bleu_vocab_file`. -/
def bleuVocabSpecRule (f : FlagAssignment) : Prop :=
  f.bleu_source.isSome = true → f.bleu_ref.isSome = true →
    f.vocab_file.isSome = true

/-- The export-vocab rule as the claim words it: whenever `export_dir` is set
(non-`None`), `vocab_file` is set.  Stated from the spec's words, to be
compared with the source's `_check_export_vocab_file`. -/
def exportVocabSpecRule (f : FlagAssignment) : Prop :=
  f.export_dir.isSome = true → f.vocab_file.isSome = true

/-- C4 (counterexample): with `mode = "train"` and `train_epochs = 0` — set
but not positive — the validator accepts although the claim requires it to
reject, so "accepts iff a positive training-epoch count is set in train
mode" is false on the code. -/
theorem check_train_limits_positive_cex :
    _check_train_limits { defaultFlags with train_epochs := Option.some 0 } = true ∧
    ¬ trainLimitsSpecRule { defaultFlags with train_epochs := Option.some 0 } := by
  constructor
  · rfl
  · intro hr
    obtain ⟨e, he, hpos⟩ := hr rfl
    have he' : (0 : Int) = e := by
      simpa using he
    omega

/-- C4 (amended): the train-mode validator accepts iff, whenever `mode`
equals `"train"`, `train_epochs` is set (to any value, not necessarily
positive); for any other mode it accepts regardless.  In particular
`mode = "train"` with `train_epochs` unset fails and `mode = "eval"` with
`train_epochs` unset passes. -/
theorem check_train_limits_spec :
    (∀ f : FlagAssignment,
      _check_train_limits f = true ↔
        (f.mode = "train" → f.train_epochs.isSome = true)) ∧
    _check_train_limits { defaultFlags with train_epochs := Option.none } = false ∧
    _check_train_limits
      { defaultFlags with mode := "eval", train_epochs := Option.none } = true := by
  refine ⟨?_, rfl, rfl⟩
  intro f
  unfold _check_train_limits
  by_cases hm : f.mode = "train" <;> simp [hm]

/-- C5: the BLEU-files validator accepts iff `bleu_source` and `bleu_ref`
are both set or both unset; an assignment where exactly one is set fails,
and a descriptive message is registered with the validator. -/
theorem check_bleu_files_spec :
    (∀ f : FlagAssignment,
      _check_bleu_files f = true ↔
        (f.bleu_source = Option.none ↔ f.bleu_ref = Option.none)) ∧
    bleu_files_message ≠ "" := by
  refine ⟨?_, by decide⟩
  intro f
  cases hs : f.bleu_source <;> cases hr : f.bleu_ref <;>
    simp [_check_bleu_files, hs, hr]

/-- C6 (counterexample): with `bleu_source` and `bleu_ref` both set to the
empty string and `vocab_file` unset, the validator accepts although the
claim (both paths set, vocab unset) requires it to reject. -/
theorem check_bleu_vocab_file_set_cex :
    _check_bleu_vocab_file emptyBleuFlags = true ∧
    ¬ bleuVocabSpecRule emptyBleuFlags := by
  constructor
  · rfl
  · intro hr
    have h := hr rfl rfl
    simp [emptyBleuFlags, defaultFlags] at h

/-- C6 (amended): the BLEU-vocab validator accepts iff, whenever both
`bleu_source` and `bleu_ref` are set to non-empty strings (truthy),
`vocab_file` is set; if either BLEU path is unset or empty it accepts
regardless of `vocab_file`. -/
theorem check_bleu_vocab_file_spec (f : FlagAssignment) :
    _check_bleu_vocab_file f = true ↔
      (pyTruthy f.bleu_source = true → pyTruthy f.bleu_ref = true →
        f.vocab_file.isSome = true) := by
  unfold _check_bleu_vocab_file
  by_cases hs : pyTruthy f.bleu_source <;>
    by_cases hr : pyTruthy f.bleu_ref <;> simp [hs, hr]

/-- C7 (counterexample): with `export_dir` set to the empty string and
`vocab_file` unset, the validator accepts although the claim (export_dir
set, vocab unset) requires it to reject. -/
theorem check_export_vocab_file_set_cex :
    _check_export_vocab_file { defaultFlags with export_dir := Option.some "" } = true ∧
    ¬ exportVocabSpecRule { defaultFlags with export_dir := Option.some "" } := by
  constructor
  · rfl
  · intro hr
    have h := hr rfl
    simp [defaultFlags] at h

/-- C7 (amended): the export-vocab validator accepts iff, whenever
`export_dir` is set to a non-empty string (truthy), `vocab_file` is set; if
`export_dir` is unset or empty it accepts regardless of `vocab_file`. -/
theorem check_export_vocab_file_spec (f : FlagAssignment) :
    _check_export_vocab_file f = true ↔
      (pyTruthy f.export_dir = true → f.vocab_file.isSome = true) := by
  unfold _check_export_vocab_file
  by_cases he : pyTruthy f.export_dir <;> simp [he]

/-- C8: `define_transformer_flags` declares the transformer-specific flags
with exactly the defaults and short aliases of the external-interface table
(`param_set`/mp enum{tiny,base,big} default "big", `static_batch` false,
`steps_per_epoch`/sbe 1000, `init_epoch`/is 0, `validation_steps`/vs 64,
`mode` "train", and the five string flags unset), and overrides the shared
base defaults so that `batch_size` is unset and `train_epochs` is 10. -/
theorem define_transformer_flags_defaults :
    flagDecl "param_set" = Option.some ⟨"param_set", Option.some "mp",
      FlagKind.enum ["tiny", "base", "big"], FlagDefault.str "big"⟩ ∧
    flagDecl "static_batch" = Option.some ⟨"static_batch", Option.none,
      FlagKind.boolean, FlagDefault.boolv false⟩ ∧
    flagDecl "steps_per_epoch" = Option.some ⟨"steps_per_epoch",
      Option.some "sbe", FlagKind.integer, FlagDefault.intv 1000⟩ ∧
    flagDecl "init_epoch" = Option.some ⟨"init_epoch", Option.some "is",
      FlagKind.integer, FlagDefault.intv 0⟩ ∧
    flagDecl "validation_steps" = Option.some ⟨"validation_steps",
      Option.some "vs", FlagKind.integer, FlagDefault.intv 64⟩ ∧
    flagDecl "mode" = Option.some ⟨"mode", Option.none, FlagKind.str,
      FlagDefault.str "train"⟩ ∧
    flagDecl "bleu_source" = Option.some ⟨"bleu_source", Option.some "bls",
      FlagKind.str, FlagDefault.unset⟩ ∧
    flagDecl "bleu_ref" = Option.some ⟨"bleu_ref", Option.some "blr",
      FlagKind.str, FlagDefault.unset⟩ ∧
    flagDecl "vocab_file" = Option.some ⟨"vocab_file", Option.some "vf",
      FlagKind.str, FlagDefault.unset⟩ ∧
    flagDecl "init_weight_path" = Option.some ⟨"init_weight_path",
      Option.some "iwp", FlagKind.str, FlagDefault.unset⟩ ∧
    flagDecl "init_logdir_timestamp" = Option.some ⟨"init_logdir_timestamp",
      Option.some "ilt", FlagKind.str, FlagDefault.unset⟩ ∧
    base_default_overrides.lookup "batch_size" = Option.some FlagDefault.unset ∧
    base_default_overrides.lookup "train_epochs" =
      Option.some (FlagDefault.intv 10) :=
  ⟨rfl, rfl, rfl, rfl, rfl, rfl, rfl, rfl, rfl, rfl, rfl, rfl, rfl⟩

/-- C9: with both BLEU paths set to the empty string and `vocab_file` unset
(other flags at their defaults) every validator accepts: the both-or-neither
check treats an empty string as set (it compares against `None`, and indeed
rejects once `bleu_ref` is reset to `None`), while the truthiness-based
vocab checks treat it as unset (`pyTruthy (some "") = false`), so
empty-string BLEU paths never require a vocabulary file. -/
theorem empty_bleu_paths_validators_accept :
    _check_train_limits emptyBleuFlags = true ∧
    _check_bleu_files emptyBleuFlags = true ∧
    _check_bleu_vocab_file emptyBleuFlags = true ∧
    _check_export_vocab_file emptyBleuFlags = true ∧
    _check_bleu_files { emptyBleuFlags with bleu_ref := Option.none } = false ∧
    pyTruthy (Option.some "") = false ∧
    (Option.some "" : Option String).isNone = false ∧
    (∀ vf : Option String,
      _check_bleu_vocab_file { emptyBleuFlags with vocab_file := vf } = true) :=
  ⟨rfl, rfl, rfl, rfl, rfl, rfl, rfl, fun _ => rfl⟩

/-- C10: the `mode` flag is declared as an unrestricted string flag, not an
enum; for every value other than `"train"` the parser accepts it and the
train-mode validator accepts even with `train_epochs` unset. -/
theorem mode_flag_unrestricted (m : String) (hm : m ≠ "train") :
    flagDecl "mode" = Option.some ⟨"mode", Option.none, FlagKind.str,
      FlagDefault.str "train"⟩ ∧
    flagParseOk ⟨"mode", Option.none, FlagKind.str, FlagDefault.str "train"⟩ m = true ∧
    _check_train_limits
      { defaultFlags with mode := m, train_epochs := Option.none } = true := by
  refine ⟨rfl, rfl, ?_⟩
  simp [_check_train_limits, hm]

/-- Witness for C10 at the concrete mode string `"bogus"`. -/
theorem mode_flag_unrestricted_witness :
    ("bogus" ≠ "train") ∧
    (flagDecl "mode" = Option.some ⟨"mode", Option.none, FlagKind.str,
        FlagDefault.str "train"⟩ ∧
      flagParseOk ⟨"mode", Option.none, FlagKind.str,
        FlagDefault.str "train"⟩ "bogus" = true ∧
      _check_train_limits
        { defaultFlags with mode := "bogus", train_epochs := Option.none } = true) :=
  ⟨by decide, mode_flag_unrestricted "bogus" (by decide)⟩

/-- Concrete sample hyperparameter records used by the witness theorems. -/
def sampleParams (k : Nat) : ModelParams := ⟨k, k, k, k⟩

/-- Every successful `get_model_params` call allocates: the returned address
is the length of the input heap (hence fresh) and the heap grows by exactly
one record. -/
lemma get_model_params_ok_shape (ps : String) (n : Int) (h : Heap) (a : Addr)
    (h' : Heap) (hok : get_model_params ps n h = Except.ok (a, h')) :
    a = h.length ∧ ∃ v, h' = h ++ [v] := by
  unfold get_model_params at hok
  split at hok
  · split at hok
    · simp only [alloc, Except.ok.injEq, Prod.mk.injEq] at hok
      exact ⟨hok.1.symm, _, hok.2.symm⟩
    · split at hok
      · simp only [alloc, Except.ok.injEq, Prod.mk.injEq] at hok
        exact ⟨hok.1.symm, _, hok.2.symm⟩
      · exact Except.noConfusion hok
  · split at hok
    · simp only [alloc, Except.ok.injEq, Prod.mk.injEq] at hok
      exact ⟨hok.1.symm, _, hok.2.symm⟩
    · exact Except.noConfusion hok

/-- Whether `get_model_params` succeeds depends only on the arguments, not on
the heap: a call that succeeded on one heap succeeds on any other heap, again
allocating a fresh record at the end. -/
lemma get_model_params_ok_other_heap (ps : String) (n : Int) (h : Heap)
    (a : Addr) (h' : Heap) (h2 : Heap)
    (hok : get_model_params ps n h = Except.ok (a, h')) :
    ∃ v2, get_model_params ps n h2 = Except.ok (h2.length, h2 ++ [v2]) := by
  by_cases hn : 1 < n
  · by_cases hbig : ps = "big"
    · refine ⟨heapGetD h2 BIG_MULTI_GPU_PARAMS_addr, ?_⟩
      unfold get_model_params
      rw [if_pos hn, if_pos hbig]
      rfl
    · by_cases hbase : ps = "base"
      · refine ⟨heapGetD h2 BASE_MULTI_GPU_PARAMS_addr, ?_⟩
        unfold get_model_params
        rw [if_pos hn, if_neg hbig, if_pos hbase]
        rfl
      · exfalso
        unfold get_model_params at hok
        rw [if_pos hn, if_neg hbig, if_neg hbase] at hok
        exact Except.noConfusion hok
  · cases hl : PARAMS_MAP.lookup ps with
    | none =>
        exfalso
        unfold get_model_params at hok
        rw [if_neg hn, hl] at hok
        exact Except.noConfusion hok
    | some addr =>
        refine ⟨heapGetD h2 addr, ?_⟩
        unfold get_model_params
        rw [if_neg hn, hl]
        rfl

/-- C1: with `num_gpus > 1`, `get_model_params` returns a fresh copy of the
multi-GPU big record for `"big"`, a fresh copy of the multi-GPU base record
for `"base"`, and for any other name (including `"tiny"`) fails with a
`ValueError` whose message contains both the offending name and the device
count. -/
theorem get_model_params_multi_gpu_spec (t b g bm gm : ModelParams)
    (ps : String) (n : Int) (hn : 1 < n) :
    (ps = "big" → get_model_params ps n (initHeap t b g bm gm) =
        Except.ok (5, [t, b, g, bm, gm, gm])) ∧
    (ps = "base" → get_model_params ps n (initHeap t b g bm gm) =
        Except.ok (5, [t, b, g, bm, gm, bm])) ∧
    (ps ≠ "big" → ps ≠ "base" →
      get_model_params ps n (initHeap t b g bm gm) =
        Except.error (PyErr.valueError (not_valid_params_msg ps n)) ∧
      (∃ u v, not_valid_params_msg ps n = u ++ ps ++ v) ∧
      (∃ u v, not_valid_params_msg ps n = u ++ toString n ++ v)) := by
  refine ⟨?_, ?_, ?_⟩
  · rintro rfl
    unfold get_model_params
    rw [if_pos hn]
    rfl
  · rintro rfl
    unfold get_model_params
    rw [if_pos hn]
    rfl
  · intro hbig hbase
    refine ⟨?_, ?_, ?_⟩
    · unfold get_model_params
      rw [if_pos hn, if_neg hbig, if_neg hbase]
    · exact ⟨"Not valid params: param_set=", " num_gpus=" ++ toString n, by
        simp [not_valid_params_msg, String.append_assoc]⟩
    · exact ⟨"Not valid params: param_set=" ++ ps ++ " num_gpus=", "", by
        simp [not_valid_params_msg, String.append_empty]⟩

/-- Witness for C1: concrete records, `param_set = "tiny"`, `num_gpus = 2`. -/
theorem get_model_params_multi_gpu_spec_witness :
    ((1 : Int) < 2) ∧
    (("tiny" = "big" → get_model_params "tiny" 2
        (initHeap (sampleParams 0) (sampleParams 1) (sampleParams 2)
          (sampleParams 3) (sampleParams 4)) =
        Except.ok (5, [sampleParams 0, sampleParams 1, sampleParams 2,
          sampleParams 3, sampleParams 4, sampleParams 4])) ∧
      ("tiny" = "base" → get_model_params "tiny" 2
        (initHeap (sampleParams 0) (sampleParams 1) (sampleParams 2)
          (sampleParams 3) (sampleParams 4)) =
        Except.ok (5, [sampleParams 0, sampleParams 1, sampleParams 2,
          sampleParams 3, sampleParams 4, sampleParams 3])) ∧
      ("tiny" ≠ "big" → "tiny" ≠ "base" →
        get_model_params "tiny" 2
          (initHeap (sampleParams 0) (sampleParams 1) (sampleParams 2)
            (sampleParams 3) (sampleParams 4)) =
          Except.error (PyErr.valueError (not_valid_params_msg "tiny" 2)) ∧
        (∃ u v, not_valid_params_msg "tiny" 2 = u ++ "tiny" ++ v) ∧
        (∃ u v, not_valid_params_msg "tiny" 2 = u ++ toString (2 : Int) ++ v))) :=
  ⟨by decide,
    get_model_params_multi_gpu_spec (sampleParams 0) (sampleParams 1)
      (sampleParams 2) (sampleParams 3) (sampleParams 4) "tiny" 2 (by decide)⟩

/-- C2: with `num_gpus ≤ 1`, `get_model_params` returns a fresh copy of the
record stored in `PARAMS_MAP` for `"tiny"`, `"base"` and `"big"`, and fails
with a `KeyError` naming the offending key for any other name. -/
theorem get_model_params_single_gpu_spec (t b g bm gm : ModelParams)
    (ps : String) (n : Int) (hn : n ≤ 1) :
    (ps = "tiny" → get_model_params ps n (initHeap t b g bm gm) =
        Except.ok (5, [t, b, g, bm, gm, t])) ∧
    (ps = "base" → get_model_params ps n (initHeap t b g bm gm) =
        Except.ok (5, [t, b, g, bm, gm, b])) ∧
    (ps = "big" → get_model_params ps n (initHeap t b g bm gm) =
        Except.ok (5, [t, b, g, bm, gm, g])) ∧
    (ps ≠ "tiny" → ps ≠ "base" → ps ≠ "big" →
      get_model_params ps n (initHeap t b g bm gm) =
        Except.error (PyErr.keyError ps)) := by
  have hn' : ¬ 1 < n := not_lt.mpr hn
  refine ⟨?_, ?_, ?_, ?_⟩
  · rintro rfl
    unfold get_model_params
    rw [if_neg hn']
    rfl
  · rintro rfl
    unfold get_model_params
    rw [if_neg hn']
    rfl
  · rintro rfl
    unfold get_model_params
    rw [if_neg hn']
    rfl
  · intro h1 h2 h3
    have e1 : (ps == "tiny") = false := beq_eq_false_iff_ne.mpr h1
    have e2 : (ps == "base") = false := beq_eq_false_iff_ne.mpr h2
    have e3 : (ps == "big") = false := beq_eq_false_iff_ne.mpr h3
    have hl : PARAMS_MAP.lookup ps = Option.none := by
      simp [PARAMS_MAP, List.lookup, e1, e2, e3]
    unfold get_model_params
    rw [if_neg hn', hl]

/-- Witness for C2: concrete records, `param_set = "unknown"`, `num_gpus = 1`. -/
theorem get_model_params_single_gpu_spec_witness :
    ((1 : Int) ≤ 1) ∧
    (("unknown" = "tiny" → get_model_params "unknown" 1
        (initHeap (sampleParams 0) (sampleParams 1) (sampleParams 2)
          (sampleParams 3) (sampleParams 4)) =
        Except.ok (5, [sampleParams 0, sampleParams 1, sampleParams 2,
          sampleParams 3, sampleParams 4, sampleParams 0])) ∧
      ("unknown" = "base" → get_model_params "unknown" 1
        (initHeap (sampleParams 0) (sampleParams 1) (sampleParams 2)
          (sampleParams 3) (sampleParams 4)) =
        Except.ok (5, [sampleParams 0, sampleParams 1, sampleParams 2,
          sampleParams 3, sampleParams 4, sampleParams 1])) ∧
      ("unknown" = "big" → get_model_params "unknown" 1
        (initHeap (sampleParams 0) (sampleParams 1) (sampleParams 2)
          (sampleParams 3) (sampleParams 4)) =
        Except.ok (5, [sampleParams 0, sampleParams 1, sampleParams 2,
          sampleParams 3, sampleParams 4, sampleParams 2])) ∧
      ("unknown" ≠ "tiny" → "unknown" ≠ "base" → "unknown" ≠ "big" →
        get_model_params "unknown" 1
          (initHeap (sampleParams 0) (sampleParams 1) (sampleParams 2)
            (sampleParams 3) (sampleParams 4)) =
          Except.error (PyErr.keyError "unknown"))) :=
  ⟨by decide,
    get_model_params_single_gpu_spec (sampleParams 0) (sampleParams 1)
      (sampleParams 2) (sampleParams 3) (sampleParams 4) "unknown" 1 (by decide)⟩

/-- C3: every successful `get_model_params` call returns a fresh record, not
any of the five shared stored records; overwriting the returned record leaves
every stored record unchanged; and a repeated call with the same arguments
succeeds with a distinct fresh record, so the two results can be mutated
independently. -/
theorem get_model_params_copy_semantics (t b g bm gm : ModelParams)
    (ps : String) (n : Int) (a : Addr) (h' : Heap)
    (hok : get_model_params ps n (initHeap t b g bm gm) = Except.ok (a, h')) :
    (a ≠ TINY_PARAMS_addr ∧ a ≠ BASE_PARAMS_addr ∧ a ≠ BIG_PARAMS_addr ∧
      a ≠ BASE_MULTI_GPU_PARAMS_addr ∧ a ≠ BIG_MULTI_GPU_PARAMS_addr) ∧
    (∀ w : ModelParams, ∀ s : Addr, s < 5 →
      heapGetD (heapSet h' a w) s = heapGetD (initHeap t b g bm gm) s) ∧
    (∃ a2 h2, get_model_params ps n h' = Except.ok (a2, h2) ∧ a2 ≠ a ∧
      (∀ w : ModelParams, heapGetD (heapSet h2 a2 w) a = heapGetD h2 a)) := by
  obtain ⟨ha, v, hh⟩ :=
    get_model_params_ok_shape ps n (initHeap t b g bm gm) a h' hok
  have ha5 : a = 5 := ha
  subst ha5
  subst hh
  refine ⟨⟨by decide, by decide, by decide, by decide, by decide⟩, ?_, ?_⟩
  · intro w s hs
    interval_cases s <;> rfl
  · obtain ⟨v2, hok2⟩ :=
      get_model_params_ok_other_heap ps n (initHeap t b g bm gm) 5
        (initHeap t b g bm gm ++ [v]) (initHeap t b g bm gm ++ [v]) hok
    exact ⟨(initHeap t b g bm gm ++ [v]).length,
      initHeap t b g bm gm ++ [v] ++ [v2], hok2, by simp [initHeap],
      fun w => rfl⟩

/-- Witness for C3: concrete records, `param_set = "base"`, `num_gpus = 1`;
the success hypothesis is discharged by evaluation. -/
theorem get_model_params_copy_semantics_witness :
    (get_model_params "base" 1
        (initHeap (sampleParams 0) (sampleParams 1) (sampleParams 2)
          (sampleParams 3) (sampleParams 4)) =
      Except.ok (5, [sampleParams 0, sampleParams 1, sampleParams 2,
        sampleParams 3, sampleParams 4, sampleParams 1])) ∧
    ((5 ≠ TINY_PARAMS_addr ∧ 5 ≠ BASE_PARAMS_addr ∧ 5 ≠ BIG_PARAMS_addr ∧
        5 ≠ BASE_MULTI_GPU_PARAMS_addr ∧ 5 ≠ BIG_MULTI_GPU_PARAMS_addr) ∧
      (∀ w : ModelParams, ∀ s : Addr, s < 5 →
        heapGetD (heapSet [sampleParams 0, sampleParams 1, sampleParams 2,
          sampleParams 3, sampleParams 4, sampleParams 1] 5 w) s =
        heapGetD (initHeap (sampleParams 0) (sampleParams 1) (sampleParams 2)
          (sampleParams 3) (sampleParams 4)) s) ∧
      (∃ a2 h2, get_model_params "base" 1
          [sampleParams 0, sampleParams 1, sampleParams 2,
            sampleParams 3, sampleParams 4, sampleParams 1] =
          Except.ok (a2, h2) ∧ a2 ≠ 5 ∧
        (∀ w : ModelParams, heapGetD (heapSet h2 a2 w) 5 = heapGetD h2 5))) :=
  ⟨rfl,
    get_model_params_copy_semantics (sampleParams 0) (sampleParams 1)
      (sampleParams 2) (sampleParams 3) (sampleParams 4) "base" 1 5
      [sampleParams 0, sampleParams 1, sampleParams 2,
        sampleParams 3, sampleParams 4, sampleParams 1] rfl⟩

end TransformerMisc
